import Mathlib

/-!
Verification development for the QR-code detector addon
(`src/qr_code_detector.cpp`).

The repository's core logic is a deterministic fallback cascade: a baseline
detect-and-decode attempt on the input image, followed (on failure) by an
ordered list of preprocessing variants, each re-submitted to the underlying
OpenCV detector, stopping at the first non-empty decoded payload.

The OpenCV collaborators (imread/imdecode, the pixel transforms, and
`cv::QRCodeDetector`) are external capabilities.  We embed them as oracles:
for a fixed input image, every preprocessing variant is a deterministic
function of that image, so the detector's answer on each variant is a
function `Variant → String × List Pt`.  The cascade control flow, the
coordinate descaling, the bounding-box extraction and the result assembly
are repository code and are translated faithfully below.
-/

namespace QRDetector

/-- An integer image point (`cv::Point`, whose coordinates are `int`). -/
structure Pt where
  x : Int
  y : Int
deriving DecidableEq

/-- The preprocessing variants attempted by the cascades in
`qr_code_detector.cpp`, in source order of first appearance.
`athresh b` is adaptive Gaussian thresholding with block size `b`;
`gammaC t` is gamma correction with gamma = `t / 10` (the source iterates
over the literal list `0.5, 0.7, 1.5, 2.0`); `resize2` is the 2.0× cubic
upscale; `resize15` is the 1.5× cubic upscale followed by CLAHE 3.0;
`combo` is CLAHE 4.0 + bilateral + adaptive threshold 21. -/
inductive Variant where
  | baseline
  | clahe
  | athresh (blockSize : Nat)
  | otsu
  | otsuInv
  | bilateral
  | morph
  | sharpen
  | resize2
  | gammaC (tenths : Nat)
  | equalize
  | combo
  | resize15

/-- For one fixed input image, the result of `qrDecoder.detectAndDecode`
on each preprocessed variant of that image: the decoded payload (empty
string = not decoded, exactly as the C++ tests `decodedData.empty()`)
and the output corner vector. -/
abbrev Detector := Variant → String × List Pt

/-- The mutable state threaded through the cascade: the current
`decodedData` string, the current `points` vector (both overwritten
together by every `detectAndDecode` call), and the trace of detector
invocations made so far (for call-count instrumentation). -/
structure CState where
  data : String
  points : List Pt
  calls : List Variant

/-- One unconditional `detectAndDecode` invocation: overwrites
`decodedData` and `points`, records the call. -/
def callD (det : Detector) (st : CState) (v : Variant) : CState :=
  { data := (det v).1, points := (det v).2, calls := st.calls ++ [v] }

/-- The repeated source pattern `if (decodedData.empty()) { ... decodedData
= qrDecoder.detectAndDecode(...); }`: invoke the detector on variant `v`
only when nothing has been decoded yet. -/
def tryV (det : Detector) (st : CState) (v : Variant) : CState :=
  if st.data = "" then callD det st v else st

/-- The literal block-size list of the adaptive-threshold loop. -/
def blockSizes : List Nat := [11, 15, 21, 31, 51]

/-- The literal gamma list `0.5, 0.7, 1.5, 2.0`, in tenths. -/
def gammaTenths : List Nat := [5, 7, 15, 20]

/-- A parameter-sweep loop (`for (... : {...}) { ... if (!decodedData.empty())
break; }` under an outer emptiness guard): successive guarded attempts. -/
def tryList (det : Detector) (st : CState) (vs : List Variant) : CState :=
  vs.foldl (tryV det) st

/-- The corner adjustment after the 2.0× upscale succeeds: `point.x /= 2.0`
on an `int` coordinate, i.e. truncating division by 2. -/
def descale2 (p : Pt) : Pt :=
  ⟨Int.tdiv p.x 2, Int.tdiv p.y 2⟩

/-- The corner adjustment after the 1.5× upscale succeeds: `point.x /= 1.5`
on an `int` coordinate.  `1.5` is exactly representable in binary floating
point and the true quotient `2x/3` is never closer than `1/3` to a wrong
integer, so for all coordinates of realistic magnitude (|x| < 2^50) the
C++ double division followed by the int conversion truncates `2x/3`. -/
def descale15 (p : Pt) : Pt :=
  ⟨Int.tdiv (2 * p.x) 3, Int.tdiv (2 * p.y) 3⟩

/-- Method 8 of the single cascade: the 2.0× upscale, attempted only when
nothing is decoded yet and either image dimension is below 800; on a
successful decode with non-empty corners the corners are divided by 2. -/
def tryResize2 (det : Detector) (cols rows : Int) (st : CState) : CState :=
  if st.data = "" ∧ (cols < 800 ∨ rows < 800) then
    let st2 := callD det st .resize2
    if st2.data ≠ "" ∧ st2.points ≠ [] then
      { st2 with points := st2.points.map descale2 }
    else st2
  else st

/-- The 1.5× upscale + CLAHE step (method 12 of the single cascade, method 4
of the multi cascade): on a successful decode with non-empty corners the
corners are divided by 1.5. -/
def tryResize15 (det : Detector) (st : CState) : CState :=
  if st.data = "" then
    let st2 := callD det st .resize15
    if st2.data ≠ "" ∧ st2.points ≠ [] then
      { st2 with points := st2.points.map descale15 }
    else st2
  else st

/-- The initial state: empty payload, empty points, no calls yet. -/
def initState : CState := ⟨"", [], []⟩

/-- The full fallback cascade of `DetectQRCode` (lines 46–189): the baseline
attempt, then — only if it decoded nothing — the twelve preprocessing
methods in source order. -/
def singleCascade (cols rows : Int) (det : Detector) : CState :=
  let st0 := callD det initState .baseline
  if st0.data = "" then
    let st1 := tryV det st0 .clahe
    let st2 := tryList det st1 (blockSizes.map Variant.athresh)
    let st3 := tryV det st2 .otsu
    let st4 := tryV det st3 .otsuInv
    let st5 := tryV det st4 .bilateral
    let st6 := tryV det st5 .morph
    let st7 := tryV det st6 .sharpen
    let st8 := tryResize2 det cols rows st7
    let st9 := tryList det st8 (gammaTenths.map Variant.gammaC)
    let st10 := tryV det st9 .equalize
    let st11 := tryV det st10 .combo
    tryResize15 det st11
  else st0

/-- The fallback cascade of `DetectMultipleQRCodes` (lines 322–386): the
baseline attempt, then — only if it decoded nothing — CLAHE
(unconditionally), the adaptive-threshold sweep, the gamma sweep, and the
1.5× upscale + CLAHE step. -/
def multiCascade (det : Detector) : CState :=
  let st0 := callD det initState .baseline
  if st0.data = "" then
    let st1 := callD det st0 .clahe
    let st2 := tryList det st1 (blockSizes.map Variant.athresh)
    let st3 := tryList det st2 (gammaTenths.map Variant.gammaC)
    tryResize15 det st3
  else st0

/-- An axis-aligned rectangle (`cv::Rect` with `int` fields). -/
structure Rect where
  x : Int
  y : Int
  width : Int
  height : Int
deriving DecidableEq

/-- `cv::boundingRect` on a vector of integer points: the minimal
axis-aligned box, whose width/height are `max - min + 1`. -/
def boundingRectPts : List Pt → Rect
  | [] => ⟨0, 0, 0, 0⟩
  | p :: ps =>
    let xmin := ps.foldl (fun a q => min a q.x) p.x
    let ymin := ps.foldl (fun a q => min a q.y) p.y
    let xmax := ps.foldl (fun a q => max a q.x) p.x
    let ymax := ps.foldl (fun a q => max a q.y) p.y
    ⟨xmin, ymin, xmax - xmin + 1, ymax - ymin + 1⟩

/-- The padding-and-clamp sequence of lines 216–220: expand by `padding`,
clamp the origin at 0, then clamp width/height against the image bounds
using the already-adjusted origin. -/
def clampRect (cols rows padding : Int) (r : Rect) : Rect :=
  let x2 := max 0 (r.x - padding)
  let y2 := max 0 (r.y - padding)
  ⟨x2, y2, min (cols - x2) (r.width + 2 * padding),
    min (rows - y2) (r.height + 2 * padding)⟩

/-- The region-extraction step (lines 211–223): only when at least 4 corner
points are present, compute the padded, clamped bounding box of the
corners.  Downstream (PNG encoding + base64) is collaborator plumbing; the
box itself is what the repository computes. -/
def extractRegion (cols rows padding : Int) (pts : List Pt) : Option Rect :=
  if 4 ≤ pts.length then
    some (clampRect cols rows padding (boundingRectPts pts))
  else none

/-- The JavaScript object returned by `detectQRCode`: `data = none` models
the explicit `null` of the not-detected branch; `corners`/`qrCodeImage`
are absent (`none`) when the corresponding `Set` call never runs.  The
`qrCodeImage` field is modelled by the cropped region's box. -/
structure DetectResult where
  detected : Bool
  data : Option String
  corners : Option (List Pt)
  qrCodeImage : Option Rect

/-- The result assembly of `DetectQRCode` (lines 192–278): `detected: true`
with the payload only when `decodedData` is non-empty; corners only when
`points` is non-empty; the cropped region only when moreover
`points.size() >= 4` (padding is the literal 10); otherwise
`detected: false` with `data: null`. -/
def buildDetectResult (cols rows : Int) (st : CState) : DetectResult :=
  if st.data ≠ "" then
    { detected := true
      data := some st.data
      corners := if st.points ≠ [] then some st.points else none
      qrCodeImage :=
        if st.points ≠ [] then extractRegion cols rows 10 st.points
        else none }
  else
    { detected := false, data := none, corners := none, qrCodeImage := none }

/-- The observable behaviour of `DetectQRCode` on a successfully loaded
image of dimensions `cols × rows`, as a function of the detector oracle. -/
def detectQRCodeModel (cols rows : Int) (det : Detector) : DetectResult :=
  buildDetectResult cols rows (singleCascade cols rows det)

/-- One entry of the `qrCodes` array of `detectMultipleQRCodes`. -/
structure QRCodeEntry where
  data : String
  corners : Option (List Pt)
  qrCodeImage : Option Rect

/-- The JavaScript object returned by `detectMultipleQRCodes`. -/
structure MultiResult where
  detected : Bool
  count : Nat
  qrCodes : List QRCodeEntry

/-- The result assembly of `DetectMultipleQRCodes` (lines 388–475): on a
decode, `count = 1` and a single-element `qrCodes` array (with the same
corner / region logic as the single entry point); otherwise `count = 0`
and an empty array. -/
def buildMultiResult (cols rows : Int) (st : CState) : MultiResult :=
  if st.data ≠ "" then
    { detected := true
      count := 1
      qrCodes :=
        [{ data := st.data
           corners := if st.points ≠ [] then some st.points else none
           qrCodeImage :=
             if st.points ≠ [] then extractRegion cols rows 10 st.points
             else none }] }
  else
    { detected := false, count := 0, qrCodes := [] }

/-- The observable behaviour of `DetectMultipleQRCodes` on a successfully
loaded image of dimensions `cols × rows`. -/
def detectMultipleQRCodesModel (cols rows : Int) (det : Detector) : MultiResult :=
  buildMultiResult cols rows (multiCascade det)

/-- A detector operation, distinguishing the locate-only call
(`qrDecoder.detect`) from a locate-and-decode call on a variant image. -/
inductive DetOp where
  | locate
  | locateAndDecode (v : Variant)

/-- The JavaScript object returned by `hasQRCode`. -/
structure HasResult where
  hasQRCode : Bool
  corners : Option (List Pt)

/-- The body of `HasQRCode` (lines 514–536): a single `qrDecoder.detect`
call (no decode, no preprocessing — the returned trace is that one
operation), reporting its boolean and attaching the raw corners exactly
when the call returned true with a non-empty point vector.  The argument
is the locate oracle's answer `(detected, points)` on the input image. -/
def hasQRCodeModel (loc : Bool × List Pt) : HasResult × List DetOp :=
  ({ hasQRCode := loc.1
     corners := if loc.1 = true ∧ loc.2 ≠ [] then some loc.2 else none },
   [DetOp.locate])

/-- A JavaScript argument value as discriminated by the entry prologues:
a string (path), a byte buffer, or anything else. -/
inductive InputValue where
  | str (s : String)
  | buf (bytes : List Nat)
  | other

/-- The two failure classes raised by the shared entry prologue:
`invalidArgument` models the `Napi::TypeError`s, `decodeError` the
`Napi::Error("Failed to read image")`. -/
inductive EntryError where
  | invalidArgument (msg : String)
  | decodeError (msg : String)

/-- A successfully decoded pixel grid; only its dimensions are observed by
the modelled logic. -/
structure Image where
  cols : Int
  rows : Int

/-- The shared input prologue of all three entry points (lines 20–40,
296–316, 492–512): no argument → TypeError; a string → `cv::imread`; a
buffer → `cv::imdecode`; anything else → TypeError; an empty loaded image
→ Error "Failed to read image".  The loaders are oracles returning `none`
for an empty `cv::Mat`. -/
def loadInput (imread : String → Option Image)
    (imdecode : List Nat → Option Image)
    (args : List InputValue) : Except EntryError Image :=
  match args with
  | [] => .error (.invalidArgument "Expected an image path or buffer")
  | a :: _ =>
    match a with
    | .str s =>
      match imread s with
      | some img => .ok img
      | none => .error (.decodeError "Failed to read image")
    | .buf b =>
      match imdecode b with
      | some img => .ok img
      | none => .error (.decodeError "Failed to read image")
    | .other => .error (.invalidArgument "Expected string or buffer argument")

/-- `detectQRCode` end to end: the prologue, then the cascade and result
assembly on the loaded image.  `det` gives, per image, the detector oracle
for that image's preprocessing variants.  Errors propagate unchanged. -/
def detectQRCodeEntry (imread : String → Option Image)
    (imdecode : List Nat → Option Image) (det : Image → Detector)
    (args : List InputValue) : Except EntryError DetectResult :=
  match loadInput imread imdecode args with
  | .error e => .error e
  | .ok img => .ok (detectQRCodeModel img.cols img.rows (det img))

/-- `detectMultipleQRCodes` end to end. -/
def detectMultipleQRCodesEntry (imread : String → Option Image)
    (imdecode : List Nat → Option Image) (det : Image → Detector)
    (args : List InputValue) : Except EntryError MultiResult :=
  match loadInput imread imdecode args with
  | .error e => .error e
  | .ok img => .ok (detectMultipleQRCodesModel img.cols img.rows (det img))

/-- `hasQRCode` end to end; `locate` is the per-image locate oracle. -/
def hasQRCodeEntry (imread : String → Option Image)
    (imdecode : List Nat → Option Image)
    (locate : Image → Bool × List Pt)
    (args : List InputValue) : Except EntryError (HasResult × List DetOp) :=
  match loadInput imread imdecode args with
  | .error e => .error e
  | .ok img => .ok (hasQRCodeModel (locate img))

/-! ### Fixed variant orders and concrete detector oracles -/

/-- The variants `DetectQRCode` attempts, in source order (the 2.0× upscale
only when an image dimension is below 800). -/
def singleOrder (cols rows : Int) : List Variant :=
  [.baseline, .clahe] ++ blockSizes.map Variant.athresh ++
    [.otsu, .otsuInv, .bilateral, .morph, .sharpen] ++
    (if cols < 800 ∨ rows < 800 then [.resize2] else []) ++
    gammaTenths.map Variant.gammaC ++ [.equalize, .combo, .resize15]

/-- The variants `DetectMultipleQRCodes` attempts, in source order. -/
def multiOrder : List Variant :=
  [.baseline, .clahe] ++ blockSizes.map Variant.athresh ++
    gammaTenths.map Variant.gammaC ++ [.resize15]

/-- The variants attempted before the 2.0× upscale in the single cascade. -/
def preResize2 : List Variant :=
  [.baseline, .clahe] ++ blockSizes.map Variant.athresh ++
    [.otsu, .otsuInv, .bilateral, .morph, .sharpen]

/-- The variants attempted before the 1.5× upscale in the single cascade,
apart from the conditionally attempted 2.0× upscale. -/
def preResize15 : List Variant :=
  preResize2 ++ gammaTenths.map Variant.gammaC ++ [.equalize, .combo]

/-- An image on which every detector attempt fails outright. -/
def emptyDet : Detector := fun _ => ("", [])

/-- An image on which the baseline attempt locates four corners but decodes
nothing, and every preprocessing variant yields nothing at all. -/
def detC1 : Detector := fun v =>
  match v with
  | .baseline => ("", [⟨1, 1⟩, ⟨9, 1⟩, ⟨9, 9⟩, ⟨1, 9⟩])
  | _ => ("", [])

/-- An image that decodes only under the normal-polarity Otsu variant —
a variant the multi-code cascade never attempts. -/
def detC2 : Detector := fun v =>
  match v with
  | .otsu => ("OTSU", [⟨0, 0⟩, ⟨5, 0⟩, ⟨5, 5⟩, ⟨0, 5⟩])
  | _ => ("", [])

/-- An image whose baseline attempt decodes immediately. -/
def detBase : Detector := fun v =>
  match v with
  | .baseline => ("BASE", [⟨2, 3⟩, ⟨8, 3⟩, ⟨8, 9⟩, ⟨2, 9⟩])
  | _ => ("", [])

/-- An image that decodes only under the 2.0× upscale variant. -/
def detR2 : Detector := fun v =>
  match v with
  | .resize2 => ("R2", [⟨7, 9⟩, ⟨0, 0⟩, ⟨3, 3⟩, ⟨5, 5⟩])
  | _ => ("", [])

/-- An image that decodes only under the 1.5× upscale variant. -/
def detR15 : Detector := fun v =>
  match v with
  | .resize15 => ("R15", [⟨7, 9⟩, ⟨0, 0⟩, ⟨3, 3⟩, ⟨6, 6⟩])
  | _ => ("", [])

/-- An image whose baseline attempt decodes but outputs no corner points. -/
def detHello : Detector := fun v =>
  match v with
  | .baseline => ("hello", [])
  | _ => ("", [])

/-! ### Claim theorems -/

/-- Claim C3: whenever the baseline `detectAndDecode` call returns a
non-empty payload, `detectQRCode` returns exactly that payload and those
corners (at scale 1.0, i.e. unmodified), and the detector is invoked
exactly once — the call trace is the single baseline attempt, so no
preprocessing variant runs. -/
theorem baseline_short_circuit (cols rows : Int) (det : Detector)
    (h : (det Variant.baseline).1 ≠ "") :
    singleCascade cols rows det =
      ⟨(det Variant.baseline).1, (det Variant.baseline).2,
        [Variant.baseline]⟩ ∧
    (detectQRCodeModel cols rows det).detected = true ∧
    (detectQRCodeModel cols rows det).data =
      some (det Variant.baseline).1 ∧
    ((det Variant.baseline).2 ≠ [] →
      (detectQRCodeModel cols rows det).corners =
        some (det Variant.baseline).2) := by
  have h1 : singleCascade cols rows det =
      ⟨(det Variant.baseline).1, (det Variant.baseline).2,
        [Variant.baseline]⟩ := by
    simp [singleCascade, callD, initState, h]
  refine ⟨h1, ?_, ?_, ?_⟩
  · simp [detectQRCodeModel, h1, buildDetectResult, h]
  · simp [detectQRCodeModel, h1, buildDetectResult, h]
  · intro hp
    simp [detectQRCodeModel, h1, buildDetectResult, h, hp]

/-- Witness for C3 at a concrete image whose baseline attempt decodes. -/
theorem baseline_short_circuit_witness :
    singleCascade 100 100 detBase =
      ⟨"BASE", [⟨2, 3⟩, ⟨8, 3⟩, ⟨8, 9⟩, ⟨2, 9⟩], [Variant.baseline]⟩ ∧
    (detectQRCodeModel 100 100 detBase).corners =
      some [⟨2, 3⟩, ⟨8, 3⟩, ⟨8, 9⟩, ⟨2, 9⟩] := by
  have h := baseline_short_circuit 100 100 detBase (by decide)
  exact ⟨h.1, h.2.2.2 (by decide)⟩

/-- Counterexample to claim C1: an image on which the baseline attempt
locates a non-empty corner set without decoding, and no variant ever
yields a payload.  The claim requires `detected: true` with those corners;
the code returns `detected: false` with `data: null` and no corners,
because the result assembly tests only `decodedData.empty()` and never
returns located-but-undecoded corners. -/
theorem located_undecoded_returns_false_cex :
    (detC1 Variant.baseline).1 = "" ∧
    (detC1 Variant.baseline).2 ≠ [] ∧
    ((singleOrder 100 100).all fun v => (detC1 v).1 == "") = true ∧
    (singleCascade 100 100 detC1).data = "" ∧
    (detectQRCodeModel 100 100 detC1).detected = false ∧
    (detectQRCodeModel 100 100 detC1).data = none ∧
    (detectQRCodeModel 100 100 detC1).corners = none := by
  decide

/-- Claim C1 as amended: `detectQRCode` returns `detected: true` exactly
when some attempted variant yields a non-empty decoded payload; when no
variant decodes, it returns `detected: false` with `data: null` and
neither corners nor a cropped image, even if a step located a non-empty
corner set — located-but-undecoded corners are never returned. -/
theorem detectQRCode_detected_iff (cols rows : Int) (det : Detector) :
    ((detectQRCodeModel cols rows det).detected = true ↔
      (singleCascade cols rows det).data ≠ "") ∧
    ((singleCascade cols rows det).data = "" →
      detectQRCodeModel cols rows det = ⟨false, none, none, none⟩) := by
  constructor
  · by_cases h : (singleCascade cols rows det).data = "" <;>
      simp [detectQRCodeModel, buildDetectResult, h]
  · intro h
    simp [detectQRCodeModel, buildDetectResult, h]

/-- Witness for the amended C1 at an image where nothing ever decodes. -/
theorem detectQRCode_detected_iff_witness :
    detectQRCodeModel 100 100 emptyDet = ⟨false, none, none, none⟩ :=
  (detectQRCode_detected_iff 100 100 emptyDet).2 (by decide)

/-- Claim C10: when a non-empty payload is decoded but the detector's
corner vector is empty, the result is `detected: true` with the payload
and with both the `corners` and `qrCodeImage` fields absent. -/
theorem decoded_without_corners_omits_fields (cols rows : Int)
    (det : Detector) (hd : (singleCascade cols rows det).data ≠ "")
    (hp : (singleCascade cols rows det).points = []) :
    detectQRCodeModel cols rows det =
      ⟨true, some (singleCascade cols rows det).data, none, none⟩ := by
  simp [detectQRCodeModel, buildDetectResult, hd, hp]

/-- Witness for C10 at an image whose baseline decode returns a payload
with an empty corner vector. -/
theorem decoded_without_corners_omits_fields_witness :
    detectQRCodeModel 100 100 detHello =
      ⟨true, some "hello", none, none⟩ := by
  have h := decoded_without_corners_omits_fields 100 100 detHello
    (by decide) (by decide)
  simpa using h

/-- Claim C6: `detectMultipleQRCodes` always reports a count of 0 or 1
with a `qrCodes` array of exactly that length — count 1 with a
one-element array exactly when the cascade decodes a payload, count 0
with an empty array otherwise. -/
theorem multi_count_zero_or_one (cols rows : Int) (det : Detector) :
    ((detectMultipleQRCodesModel cols rows det).count = 0 ∨
      (detectMultipleQRCodesModel cols rows det).count = 1) ∧
    (detectMultipleQRCodesModel cols rows det).qrCodes.length =
      (detectMultipleQRCodesModel cols rows det).count ∧
    ((detectMultipleQRCodesModel cols rows det).count = 1 ↔
      (multiCascade det).data ≠ "") ∧
    ((detectMultipleQRCodesModel cols rows det).count = 0 ↔
      (detectMultipleQRCodesModel cols rows det).qrCodes = []) := by
  by_cases h : (multiCascade det).data = "" <;>
    simp [detectMultipleQRCodesModel, buildMultiResult, h]

/-- Claim C7: `hasQRCode` performs exactly one locate call and no
decode-path call (its operation trace is the single `DetOp.locate`); under
the locate contract (the boolean is true exactly when corners are output),
it returns `found: true` with the raw corner set when locate succeeds with
a non-empty point list, and `found: false` with no corners otherwise. -/
theorem hasQRCode_single_locate (loc : Bool × List Pt)
    (hwf : loc.1 = true ↔ loc.2 ≠ []) :
    (hasQRCodeModel loc).2 = [DetOp.locate] ∧
    (∀ v : Variant, DetOp.locateAndDecode v ∉ (hasQRCodeModel loc).2) ∧
    (loc.2 ≠ [] → (hasQRCodeModel loc).1 = ⟨true, some loc.2⟩) ∧
    (loc.2 = [] → (hasQRCodeModel loc).1 = ⟨false, none⟩) := by
  refine ⟨rfl, by simp [hasQRCodeModel], ?_, ?_⟩
  · intro hne
    have h1 : loc.1 = true := hwf.mpr hne
    simp [hasQRCodeModel, h1, hne]
  · intro he
    have h1 : loc.1 = false := by
      cases hb : loc.1
      · rfl
      · exact absurd (hwf.mp hb) (by simp [he])
    simp [hasQRCodeModel, h1, he]

/-- Witness for C7 at a concrete successful locate answer. -/
theorem hasQRCode_single_locate_witness :
    (hasQRCodeModel (true, [⟨1, 2⟩])).1 = ⟨true, some [⟨1, 2⟩]⟩ ∧
    (hasQRCodeModel (true, [⟨1, 2⟩])).2 = [DetOp.locate] := by
  have h := hasQRCode_single_locate (true, [⟨1, 2⟩]) (by decide)
  exact ⟨h.2.2.1 (by decide), h.1⟩

/-- Claim C8: with fewer than 4 corner points, region extraction returns
absent — and consequently the assembled result of `detectQRCode` carries
no `qrCodeImage` field, never a zero-size or malformed region. -/
theorem region_absent_below_four (cols rows padding : Int) (pts : List Pt)
    (h : pts.length < 4) :
    extractRegion cols rows padding pts = none ∧
    ∀ st : CState, st.points = pts →
      (buildDetectResult cols rows st).qrCodeImage = none := by
  have hlt : ¬ (4 ≤ pts.length) := by omega
  refine ⟨by simp [extractRegion, hlt], ?_⟩
  intro st hst
  by_cases hd : st.data = ""
  · simp [buildDetectResult, hd]
  · by_cases hp : pts = []
    · simp [buildDetectResult, hd, hst, hp]
    · simp [buildDetectResult, hd, hst, hp, extractRegion, hlt]

/-- Witness for C8 at a three-point corner set. -/
theorem region_absent_below_four_witness :
    extractRegion 30 30 10 [⟨1, 1⟩, ⟨2, 2⟩, ⟨3, 3⟩] = none ∧
    (buildDetectResult 30 30
      ⟨"x", [⟨1, 1⟩, ⟨2, 2⟩, ⟨3, 3⟩], []⟩).qrCodeImage = none := by
  have h := region_absent_below_four 30 30 10 [⟨1, 1⟩, ⟨2, 2⟩, ⟨3, 3⟩]
    (by decide)
  exact ⟨h.1, h.2 ⟨"x", [⟨1, 1⟩, ⟨2, 2⟩, ⟨3, 3⟩], []⟩ rfl⟩

/-- Claim C4: for any corner set of at least 4 points and any padding
`p ≥ 0`, region extraction produces the padded bounding box with origin
clamped at 0 and size clamped against the image bounds using the adjusted
origin; in particular, corners with bounding box (5, 5, 20, 20) in a
30×30 image with padding 10 yield the box (0, 0, 30, 30). -/
theorem extractRegion_clamped_box :
    (∀ (cols rows padding : Int) (pts : List Pt),
      4 ≤ pts.length → 0 ≤ padding →
      ∃ r, extractRegion cols rows padding pts = some r ∧
        r.x = max 0 ((boundingRectPts pts).x - padding) ∧
        r.y = max 0 ((boundingRectPts pts).y - padding) ∧
        r.width =
          min (cols - r.x) ((boundingRectPts pts).width + 2 * padding) ∧
        r.height =
          min (rows - r.y) ((boundingRectPts pts).height + 2 * padding)) ∧
    boundingRectPts [⟨5, 5⟩, ⟨24, 5⟩, ⟨24, 24⟩, ⟨5, 24⟩] =
      ⟨5, 5, 20, 20⟩ ∧
    extractRegion 30 30 10 [⟨5, 5⟩, ⟨24, 5⟩, ⟨24, 24⟩, ⟨5, 24⟩] =
      some ⟨0, 0, 30, 30⟩ := by
  refine ⟨?_, by decide, by decide⟩
  intro cols rows padding pts h hp
  exact ⟨clampRect cols rows padding (boundingRectPts pts),
    by simp [extractRegion, h], rfl, rfl, rfl, rfl⟩

/-- Witness for C4 at a concrete corner set and padding. -/
theorem extractRegion_clamped_box_witness :
    ∃ r, extractRegion 40 50 3 [⟨5, 5⟩, ⟨24, 5⟩, ⟨24, 24⟩, ⟨5, 24⟩] =
        some r ∧
      r.x = max 0
        ((boundingRectPts [⟨5, 5⟩, ⟨24, 5⟩, ⟨24, 24⟩, ⟨5, 24⟩]).x - 3) ∧
      r.y = max 0
        ((boundingRectPts [⟨5, 5⟩, ⟨24, 5⟩, ⟨24, 24⟩, ⟨5, 24⟩]).y - 3) ∧
      r.width = min (40 - r.x)
        ((boundingRectPts [⟨5, 5⟩, ⟨24, 5⟩, ⟨24, 24⟩, ⟨5, 24⟩]).width +
          2 * 3) ∧
      r.height = min (50 - r.y)
        ((boundingRectPts [⟨5, 5⟩, ⟨24, 5⟩, ⟨24, 24⟩, ⟨5, 24⟩]).height +
          2 * 3) :=
  extractRegion_clamped_box.1 40 50 3 [⟨5, 5⟩, ⟨24, 5⟩, ⟨24, 24⟩, ⟨5, 24⟩]
    (by decide) (by decide)

/-- Counterexample to claim C2: an image that decodes only under the
normal-polarity Otsu variant.  `detectQRCode` (which attempts Otsu)
returns the payload; `detectMultipleQRCodes` (whose cascade omits Otsu,
along with seven other variants of the primary cascade) returns nothing,
and the two entry points' call traces even have different lengths (8
detector invocations versus 12) — the cascades are not identical. -/
theorem multi_single_cascades_differ_cex :
    (singleCascade 100 100 detC2).data = "OTSU" ∧
    (multiCascade detC2).data = "" ∧
    (detectQRCodeModel 100 100 detC2).detected = true ∧
    (detectMultipleQRCodesModel 100 100 detC2).count = 0 ∧
    (singleCascade 100 100 detC2).calls.length = 8 ∧
    (multiCascade detC2).calls.length = 12 := by
  decide

/-- Claim C2 as amended: the two entry points share the baseline attempt
and agree whenever it decodes, but `detectMultipleQRCodes` runs a reduced
cascade — baseline, CLAHE, the adaptive-threshold sweep, the gamma sweep,
and the 1.5× upscale, in that order — which is a strict subsequence of the
primary cascade's variant order (it omits Otsu, inverted Otsu, bilateral,
morphological closing, sharpening, the 2.0× upscale, histogram
equalization and the combined pipeline), so the two entry points can
produce different payloads. -/
theorem multi_cascade_reduced (cols rows : Int) (det : Detector) :
    ((det Variant.baseline).1 ≠ "" →
      multiCascade det = singleCascade cols rows det) ∧
    ((∀ v, (det v).1 = "") →
      (multiCascade det).calls = multiOrder ∧
      (singleCascade cols rows det).calls = singleOrder cols rows) ∧
    multiOrder.Sublist (singleOrder cols rows) ∧
    multiOrder.length < (singleOrder cols rows).length := by
  have e2 : multiOrder =
      [Variant.baseline, Variant.clahe, Variant.athresh 11,
        Variant.athresh 15, Variant.athresh 21, Variant.athresh 31,
        Variant.athresh 51, Variant.gammaC 5, Variant.gammaC 7,
        Variant.gammaC 15, Variant.gammaC 20, Variant.resize15] := by
    simp [multiOrder, blockSizes, gammaTenths]
  have hcd : multiOrder.Sublist (singleOrder cols rows) ∧
      multiOrder.length < (singleOrder cols rows).length := by
    by_cases hd : cols < 800 ∨ rows < 800
    · have e1 : singleOrder cols rows =
          [Variant.baseline, Variant.clahe, Variant.athresh 11,
            Variant.athresh 15, Variant.athresh 21, Variant.athresh 31,
            Variant.athresh 51, Variant.otsu, Variant.otsuInv,
            Variant.bilateral, Variant.morph, Variant.sharpen,
            Variant.resize2, Variant.gammaC 5, Variant.gammaC 7,
            Variant.gammaC 15, Variant.gammaC 20, Variant.equalize,
            Variant.combo, Variant.resize15] := by
        simp [singleOrder, blockSizes, gammaTenths, hd]
      rw [e2, e1]
      exact ⟨.cons₂ _ (.cons₂ _ (.cons₂ _ (.cons₂ _ (.cons₂ _ (.cons₂ _
        (.cons₂ _ (.cons _ (.cons _ (.cons _ (.cons _ (.cons _ (.cons _
        (.cons₂ _ (.cons₂ _ (.cons₂ _ (.cons₂ _ (.cons _ (.cons _
        (.cons₂ _ .slnil))))))))))))))))))), by decide⟩
    · have e1 : singleOrder cols rows =
          [Variant.baseline, Variant.clahe, Variant.athresh 11,
            Variant.athresh 15, Variant.athresh 21, Variant.athresh 31,
            Variant.athresh 51, Variant.otsu, Variant.otsuInv,
            Variant.bilateral, Variant.morph, Variant.sharpen,
            Variant.gammaC 5, Variant.gammaC 7, Variant.gammaC 15,
            Variant.gammaC 20, Variant.equalize, Variant.combo,
            Variant.resize15] := by
        simp [singleOrder, blockSizes, gammaTenths, hd]
      rw [e2, e1]
      exact ⟨.cons₂ _ (.cons₂ _ (.cons₂ _ (.cons₂ _ (.cons₂ _ (.cons₂ _
        (.cons₂ _ (.cons _ (.cons _ (.cons _ (.cons _ (.cons _
        (.cons₂ _ (.cons₂ _ (.cons₂ _ (.cons₂ _ (.cons _ (.cons _
        (.cons₂ _ .slnil)))))))))))))))))), by decide⟩
  refine ⟨?_, ?_, hcd.1, hcd.2⟩
  · intro h
    simp [multiCascade, singleCascade, callD, initState, h]
  · intro h
    constructor
    · simp [multiCascade, callD, initState, tryList, tryV, tryResize15,
        blockSizes, gammaTenths, h, multiOrder]
    · by_cases hd : cols < 800 ∨ rows < 800 <;>
        simp [singleCascade, callD, initState, tryList, tryV, tryResize2,
          tryResize15, blockSizes, gammaTenths, h, hd, singleOrder]

/-- Witness for the amended C2: the traces at an image where nothing
decodes, and agreement at an image whose baseline decodes. -/
theorem multi_cascade_reduced_witness :
    (multiCascade emptyDet).calls = multiOrder ∧
    (singleCascade 100 100 emptyDet).calls = singleOrder 100 100 ∧
    multiCascade detBase = singleCascade 100 100 detBase := by
  have h1 := (multi_cascade_reduced 100 100 emptyDet).2.1 (fun v => rfl)
  have h2 := (multi_cascade_reduced 100 100 detBase).1 (by decide)
  exact ⟨h1.1, h1.2, h2⟩

/-- Claim C5: when the 2.0× upscale variant produces the successful
decode, the returned corners are exactly the detected coordinates divided
by 2.0 (the applied ratio, via C-truncation of the integer coordinates);
when the 1.5× upscale variant does, they are exactly the detected
coordinates divided by 1.5; in both cases the descaled coordinate differs
from the exact quotient by less than one pixel, i.e. scaling it back by
the ratio recovers the detected coordinate to within the ratio. -/
theorem resize_descale_exact (cols rows : Int) (det : Detector) :
    ((∀ v ∈ preResize2, (det v).1 = "") → (cols < 800 ∨ rows < 800) →
      (det Variant.resize2).1 ≠ "" → (det Variant.resize2).2 ≠ [] →
      (singleCascade cols rows det).data = (det Variant.resize2).1 ∧
      (singleCascade cols rows det).points =
        (det Variant.resize2).2.map descale2) ∧
    ((∀ v ∈ preResize15, (det v).1 = "") →
      ((cols < 800 ∨ rows < 800) → (det Variant.resize2).1 = "") →
      (det Variant.resize15).1 ≠ "" → (det Variant.resize15).2 ≠ [] →
      (singleCascade cols rows det).data = (det Variant.resize15).1 ∧
      (singleCascade cols rows det).points =
        (det Variant.resize15).2.map descale15) ∧
    (∀ p : Pt,
      (0 ≤ p.x →
        2 * (descale2 p).x ≤ p.x ∧ p.x < 2 * (descale2 p).x + 2) ∧
      (0 ≤ p.y →
        2 * (descale2 p).y ≤ p.y ∧ p.y < 2 * (descale2 p).y + 2) ∧
      (0 ≤ p.x →
        3 * (descale15 p).x ≤ 2 * p.x ∧
          2 * p.x < 3 * (descale15 p).x + 3) ∧
      (0 ≤ p.y →
        3 * (descale15 p).y ≤ 2 * p.y ∧
          2 * p.y < 3 * (descale15 p).y + 3)) := by
  refine ⟨?_, ?_, ?_⟩
  · intro hpre hdim hr1 hr2
    have hb : (det Variant.baseline).1 = "" :=
      hpre _ (by simp [preResize2, blockSizes])
    have hc : (det Variant.clahe).1 = "" :=
      hpre _ (by simp [preResize2, blockSizes])
    have h11 : (det (Variant.athresh 11)).1 = "" :=
      hpre _ (by simp [preResize2, blockSizes])
    have h15 : (det (Variant.athresh 15)).1 = "" :=
      hpre _ (by simp [preResize2, blockSizes])
    have h21 : (det (Variant.athresh 21)).1 = "" :=
      hpre _ (by simp [preResize2, blockSizes])
    have h31 : (det (Variant.athresh 31)).1 = "" :=
      hpre _ (by simp [preResize2, blockSizes])
    have h51 : (det (Variant.athresh 51)).1 = "" :=
      hpre _ (by simp [preResize2, blockSizes])
    have hot : (det Variant.otsu).1 = "" :=
      hpre _ (by simp [preResize2, blockSizes])
    have hoi : (det Variant.otsuInv).1 = "" :=
      hpre _ (by simp [preResize2, blockSizes])
    have hbi : (det Variant.bilateral).1 = "" :=
      hpre _ (by simp [preResize2, blockSizes])
    have hmo : (det Variant.morph).1 = "" :=
      hpre _ (by simp [preResize2, blockSizes])
    have hsh : (det Variant.sharpen).1 = "" :=
      hpre _ (by simp [preResize2, blockSizes])
    constructor <;>
      simp [singleCascade, callD, initState, tryV, tryList, tryResize2,
        tryResize15, blockSizes, gammaTenths, hb, hc, h11, h15, h21, h31,
        h51, hot, hoi, hbi, hmo, hsh, hdim, hr1, hr2]
  · intro hpre hdR2 hr1 hr2
    have hb : (det Variant.baseline).1 = "" :=
      hpre _ (by simp [preResize15, preResize2, blockSizes, gammaTenths])
    have hc : (det Variant.clahe).1 = "" :=
      hpre _ (by simp [preResize15, preResize2, blockSizes, gammaTenths])
    have h11 : (det (Variant.athresh 11)).1 = "" :=
      hpre _ (by simp [preResize15, preResize2, blockSizes, gammaTenths])
    have h15 : (det (Variant.athresh 15)).1 = "" :=
      hpre _ (by simp [preResize15, preResize2, blockSizes, gammaTenths])
    have h21 : (det (Variant.athresh 21)).1 = "" :=
      hpre _ (by simp [preResize15, preResize2, blockSizes, gammaTenths])
    have h31 : (det (Variant.athresh 31)).1 = "" :=
      hpre _ (by simp [preResize15, preResize2, blockSizes, gammaTenths])
    have h51 : (det (Variant.athresh 51)).1 = "" :=
      hpre _ (by simp [preResize15, preResize2, blockSizes, gammaTenths])
    have hot : (det Variant.otsu).1 = "" :=
      hpre _ (by simp [preResize15, preResize2, blockSizes, gammaTenths])
    have hoi : (det Variant.otsuInv).1 = "" :=
      hpre _ (by simp [preResize15, preResize2, blockSizes, gammaTenths])
    have hbi : (det Variant.bilateral).1 = "" :=
      hpre _ (by simp [preResize15, preResize2, blockSizes, gammaTenths])
    have hmo : (det Variant.morph).1 = "" :=
      hpre _ (by simp [preResize15, preResize2, blockSizes, gammaTenths])
    have hsh : (det Variant.sharpen).1 = "" :=
      hpre _ (by simp [preResize15, preResize2, blockSizes, gammaTenths])
    have hg5 : (det (Variant.gammaC 5)).1 = "" :=
      hpre _ (by simp [preResize15, preResize2, blockSizes, gammaTenths])
    have hg7 : (det (Variant.gammaC 7)).1 = "" :=
      hpre _ (by simp [preResize15, preResize2, blockSizes, gammaTenths])
    have hg15 : (det (Variant.gammaC 15)).1 = "" :=
      hpre _ (by simp [preResize15, preResize2, blockSizes, gammaTenths])
    have hg20 : (det (Variant.gammaC 20)).1 = "" :=
      hpre _ (by simp [preResize15, preResize2, blockSizes, gammaTenths])
    have heq : (det Variant.equalize).1 = "" :=
      hpre _ (by simp [preResize15, preResize2, blockSizes, gammaTenths])
    have hcb : (det Variant.combo).1 = "" :=
      hpre _ (by simp [preResize15, preResize2, blockSizes, gammaTenths])
    by_cases hd : cols < 800 ∨ rows < 800
    · have hr2e : (det Variant.resize2).1 = "" := hdR2 hd
      constructor <;>
        simp [singleCascade, callD, initState, tryV, tryList, tryResize2,
          tryResize15, blockSizes, gammaTenths, hb, hc, h11, h15, h21,
          h31, h51, hot, hoi, hbi, hmo, hsh, hg5, hg7, hg15, hg20, heq,
          hcb, hd, hr2e, hr1, hr2]
    · constructor <;>
        simp [singleCascade, callD, initState, tryV, tryList, tryResize2,
          tryResize15, blockSizes, gammaTenths, hb, hc, h11, h15, h21,
          h31, h51, hot, hoi, hbi, hmo, hsh, hg5, hg7, hg15, hg20, heq,
          hcb, hd, hr1, hr2]
  · intro p
    have e2x : (descale2 p).x = Int.tdiv p.x 2 := rfl
    have e2y : (descale2 p).y = Int.tdiv p.y 2 := rfl
    have e15x : (descale15 p).x = Int.tdiv (2 * p.x) 3 := rfl
    have e15y : (descale15 p).y = Int.tdiv (2 * p.y) 3 := rfl
    refine ⟨fun h => ?_, fun h => ?_, fun h => ?_, fun h => ?_⟩
    · rw [e2x, Int.tdiv_eq_ediv h (by omega)]; omega
    · rw [e2y, Int.tdiv_eq_ediv h (by omega)]; omega
    · rw [e15x, Int.tdiv_eq_ediv (by omega) (by omega)]; omega
    · rw [e15y, Int.tdiv_eq_ediv (by omega) (by omega)]; omega

/-- Witness for C5 at images that decode only under each upscale variant:
the cascade's returned corners are the detected corners divided by 2
(resp. 1.5), and the bound holds at a concrete point. -/
theorem resize_descale_exact_witness :
    (singleCascade 100 100 detR2).data = "R2" ∧
    (singleCascade 100 100 detR2).points =
      [⟨3, 4⟩, ⟨0, 0⟩, ⟨1, 1⟩, ⟨2, 2⟩] ∧
    (singleCascade 100 100 detR15).data = "R15" ∧
    (singleCascade 100 100 detR15).points =
      [⟨4, 6⟩, ⟨0, 0⟩, ⟨2, 2⟩, ⟨4, 4⟩] ∧
    2 * (descale2 ⟨7, 9⟩).x ≤ 7 ∧ (7 : Int) < 2 * (descale2 ⟨7, 9⟩).x + 2 := by
  have h1 := (resize_descale_exact 100 100 detR2).1 (by decide)
    (by decide) (by decide) (by decide)
  have h2 := (resize_descale_exact 100 100 detR15).2.1 (by decide)
    (fun _ => rfl) (by decide) (by decide)
  have h3 := ((resize_descale_exact 100 100 detR2).2.2 ⟨7, 9⟩).1 (by decide)
  exact ⟨h1.1, by simpa using h1.2, h2.1, by simpa using h2.2, h3.1, h3.2⟩

/-- Claim C9: each of the three entry points raises `InvalidArgument`
exactly when the argument is missing or neither a path string nor a byte
buffer, raises `DecodeError` exactly when the supplied path or bytes fail
to parse into a pixel grid, and otherwise proceeds with the loaded image;
every failure propagates unchanged to the immediate caller — the entry
result is an error precisely when the shared prologue produced that very
error, so nothing is swallowed or converted, and the loader is consulted
only on the single supplied argument. -/
theorem entry_error_taxonomy (imread : String → Option Image)
    (imdecode : List Nat → Option Image) (det : Image → Detector)
    (locate : Image → Bool × List Pt) (args : List InputValue) :
    (∀ e, detectQRCodeEntry imread imdecode det args = .error e ↔
      loadInput imread imdecode args = .error e) ∧
    (∀ e, detectMultipleQRCodesEntry imread imdecode det args = .error e ↔
      loadInput imread imdecode args = .error e) ∧
    (∀ e, hasQRCodeEntry imread imdecode locate args = .error e ↔
      loadInput imread imdecode args = .error e) ∧
    ((∃ m, loadInput imread imdecode args =
        .error (.invalidArgument m)) ↔
      (args = [] ∨ ∃ rest, args = InputValue.other :: rest)) ∧
    ((∃ m, loadInput imread imdecode args = .error (.decodeError m)) ↔
      ((∃ s rest, args = InputValue.str s :: rest ∧ imread s = none) ∨
        (∃ b rest, args = InputValue.buf b :: rest ∧
          imdecode b = none))) ∧
    (∀ img, loadInput imread imdecode args = .ok img →
      detectQRCodeEntry imread imdecode det args =
        .ok (detectQRCodeModel img.cols img.rows (det img)) ∧
      detectMultipleQRCodesEntry imread imdecode det args =
        .ok (detectMultipleQRCodesModel img.cols img.rows (det img)) ∧
      hasQRCodeEntry imread imdecode locate args =
        .ok (hasQRCodeModel (locate img))) := by
  rcases args with _ | ⟨a, rest⟩
  · simp [detectQRCodeEntry, detectMultipleQRCodesEntry, hasQRCodeEntry,
      loadInput]
  · rcases a with s | b | _
    · rcases him : imread s with _ | img <;>
        simp [detectQRCodeEntry, detectMultipleQRCodesEntry,
          hasQRCodeEntry, loadInput, him]
    · rcases him : imdecode b with _ | img <;>
        simp [detectQRCodeEntry, detectMultipleQRCodesEntry,
          hasQRCodeEntry, loadInput, him]
    · simp [detectQRCodeEntry, detectMultipleQRCodesEntry, hasQRCodeEntry,
        loadInput]

/-- A loader oracle that parses every path into a 10×10 image. -/
def imreadOk : String → Option Image := fun _ => some ⟨10, 10⟩

/-- A buffer loader oracle that fails to parse every buffer. -/
def imdecodeNone : List Nat → Option Image := fun _ => none

/-- A per-image detector oracle on which every attempt fails. -/
def detOfImage : Image → Detector := fun _ => emptyDet

/-- A per-image locate oracle that finds nothing. -/
def locateOfImage : Image → Bool × List Pt := fun _ => (false, [])

/-- Witness for C9 at concrete oracles and arguments: a path argument that
parses proceeds through `detectQRCode`, and a missing argument raises the
`InvalidArgument` TypeError. -/
theorem entry_error_taxonomy_witness :
    detectQRCodeEntry imreadOk imdecodeNone detOfImage
        [InputValue.str "a"] =
      .ok (detectQRCodeModel 10 10 emptyDet) ∧
    (∃ m, loadInput imreadOk imdecodeNone [] =
      .error (.invalidArgument m)) := by
  have h := (entry_error_taxonomy imreadOk imdecodeNone detOfImage
    locateOfImage [InputValue.str "a"]).2.2.2.2.2 ⟨10, 10⟩ rfl
  have h2 := (entry_error_taxonomy imreadOk imdecodeNone detOfImage
    locateOfImage []).2.2.2.1
  exact ⟨h.1, h2.mpr (Or.inl rfl)⟩

/-- Witness for C6 at a concrete image. -/
theorem multi_count_zero_or_one_witness :
    (detectMultipleQRCodesModel 100 100 detC2).count = 0 ∨
      (detectMultipleQRCodesModel 100 100 detC2).count = 1 :=
  (multi_count_zero_or_one 100 100 detC2).1

end QRDetector
